import Mathlib

/-!
Shallow embedding of the golex-gateway synchronization core:
`app/workers/sync_worker.py`, `app/db/supabase_client.py` and
`app/storage/r2_client.py`, together with theorems settling the
specification's claims about them.

Upstream payloads are loosely-typed Python/JSON values; they are modelled
by `PyVal`.  Values bound into SQL statements are modelled by `SqlVal`.
Each modelled table is a list of rows, and the SQL upsert statements are
translated clause by clause.  `NOW()` is modelled by an explicit time
argument threaded through every write.
-/

namespace Golex

/-- A Python value as it occurs in the upstream JSON payloads handled by the
worker.  Numeric payload values are integers in every modelled path, so a
single `int` constructor suffices; floating-point values never reach the
code paths treated here. -/
inductive PyVal where
  | none
  | int (n : Int)
  | str (s : String)
  | dict (fields : List (String × PyVal))
  | list (items : List PyVal)

/-- The Python exceptions that the modelled code can raise. -/
inductive PyErr where
  | attributeError
  | valueError
  | typeError
  deriving DecidableEq

/-- First binding of a key in a Python dict (keys are unique in practice). -/
def lookupKey : List (String × PyVal) → String → Option PyVal
  | [], _ => Option.none
  | (k, v) :: rest, key => if k = key then some v else lookupKey rest key

/-- Python `x.get(key, default)`: returns the bound value (even if it is
`None`) when the key is present, the default otherwise; raises
`AttributeError` when the receiver is not a dict. -/
def pyGet (v : PyVal) (key : String) (dflt : PyVal) : Except PyErr PyVal :=
  match v with
  | .dict fs => .ok ((lookupKey fs key).getD dflt)
  | _ => .error .attributeError

/-- Python `str(x)` for the values the worker stringifies (ids).  In
particular `str(None) = "None"`. -/
def pyStr : PyVal → String
  | .none => "None"
  | .int n => toString n
  | .str s => s
  | .dict _ => "<dict>"
  | .list _ => "<list>"

/-- Python truthiness, used by `_save_team`'s `if not team_data` guard. -/
def pyFalsy : PyVal → Bool
  | .none => true
  | .int n => n = 0
  | .str s => s.isEmpty
  | .dict fs => fs.isEmpty
  | .list xs => xs.isEmpty

/-- Python `v == s` for a string literal `s`: true exactly when `v` is an
equal string. -/
def pyEqStr (v : PyVal) (s : String) : Bool :=
  match v with
  | .str t => t = s
  | _ => false

/-- Digit run to a number; `Option.none` on the empty run or a non-digit. -/
def digitsVal (cs : List Char) : Option Nat :=
  if cs.isEmpty then Option.none
  else cs.foldl
    (fun acc c => acc.bind fun n =>
      if c.isDigit then some (10 * n + (c.toNat - 48)) else Option.none)
    (some 0)

/-- Python `int(s)` on the strings that occur here: an optional sign
followed by digits (whitespace and underscore tolerance are unused by the
call sites and omitted).  `Option.none` models the `ValueError` raise. -/
def pyIntParse (s : String) : Option Int :=
  match s.toList with
  | '-' :: cs => (digitsVal cs).map (fun n => -(n : Int))
  | '+' :: cs => (digitsVal cs).map (fun n => (n : Int))
  | cs => (digitsVal cs).map (fun n => (n : Int))

/-- A value bound into a SQL statement: the worker only ever binds text,
integers or NULL. -/
inductive SqlVal where
  | null
  | s (v : String)
  | n (v : Int)
  deriving DecidableEq

/-- Parameter binding of a Python value into a SQL statement (asyncpg):
scalars bind, containers raise a type error at execute time. -/
def pyToSql : PyVal → Except PyErr SqlVal
  | .none => .ok .null
  | .int n => .ok (.n n)
  | .str s => .ok (.s s)
  | .dict _ => .error .typeError
  | .list _ => .error .typeError

/-! ## The relational store (`app/db/supabase_client.py`)

Each table is a list of rows.  `NOW()` becomes an explicit `now : Nat`
argument. -/

/-- The columns of the `fixtures` table written by `upsert_fixture`,
without the `updated_at` timestamp. -/
structure FixtureRecord where
  id : SqlVal
  league_id : SqlVal
  home_team_id : SqlVal
  away_team_id : SqlVal
  match_date : SqlVal
  status : SqlVal
  home_score : SqlVal
  away_score : SqlVal
  venue : SqlVal
  referee_id : SqlVal
  deriving DecidableEq

/-- A stored `fixtures` row. -/
structure FixtureRow extends FixtureRecord where
  updated_at : Nat
  deriving DecidableEq

/-- The `ON CONFLICT (id) DO UPDATE` clause of `upsert_fixture`: only
`status`, `home_score`, `away_score` and `updated_at` are replaced. -/
def updFixtureRow (rec : FixtureRecord) (now : Nat) (r : FixtureRow) : FixtureRow :=
  if r.id = rec.id then
    { r with status := rec.status, home_score := rec.home_score,
             away_score := rec.away_score, updated_at := now }
  else r

/-- `SupabaseClient.upsert_fixture`: insert the full record, or on an `id`
conflict update only status, scores and `updated_at`. -/
def upsertFixture (store : List FixtureRow) (rec : FixtureRecord) (now : Nat) :
    List FixtureRow :=
  if store.any (fun r => r.id = rec.id) then
    store.map (updFixtureRow rec now)
  else
    store ++ [{ toFixtureRecord := rec, updated_at := now }]

/-- Row of the `fixtures` table with the given primary key. -/
def findFixture (store : List FixtureRow) (id : SqlVal) : Option FixtureRow :=
  store.find? (fun r => r.id = id)

/-- The columns of the `teams` table written by `upsert_team`, without the
`created_at` timestamp. -/
structure TeamRecord where
  id : SqlVal
  name : SqlVal
  logo_url : SqlVal
  country : SqlVal
  league_id : SqlVal
  founded : SqlVal
  venue : SqlVal
  deriving DecidableEq

/-- A stored `teams` row. -/
structure TeamRow extends TeamRecord where
  created_at : Nat
  deriving DecidableEq

/-- The `ON CONFLICT (id) DO UPDATE` clause of `upsert_team`: `name`,
`logo_url` and `venue` are replaced; `country`, `league_id`, `founded` and
`created_at` keep their stored values. -/
def updTeamRow (rec : TeamRecord) (r : TeamRow) : TeamRow :=
  if r.id = rec.id then
    { r with name := rec.name, logo_url := rec.logo_url, venue := rec.venue }
  else r

/-- `SupabaseClient.upsert_team`. -/
def upsertTeam (store : List TeamRow) (rec : TeamRecord) (now : Nat) :
    List TeamRow :=
  if store.any (fun r => r.id = rec.id) then
    store.map (updTeamRow rec)
  else
    store ++ [{ toTeamRecord := rec, created_at := now }]

/-- Row of the `teams` table with the given primary key. -/
def findTeam (store : List TeamRow) (id : SqlVal) : Option TeamRow :=
  store.find? (fun r => r.id = id)

/-- The stat columns of the `fixture_stats` table, without the key and the
`updated_at` timestamp. -/
structure StatsRecord where
  home_xg : SqlVal
  away_xg : SqlVal
  home_possession : SqlVal
  away_possession : SqlVal
  home_shots : SqlVal
  away_shots : SqlVal
  home_shots_on_target : SqlVal
  away_shots_on_target : SqlVal
  home_corners : SqlVal
  away_corners : SqlVal
  home_fouls : SqlVal
  away_fouls : SqlVal
  deriving DecidableEq

/-- A stored `fixture_stats` row, keyed by `fixture_id`. -/
structure StatsRow extends StatsRecord where
  fixture_id : SqlVal
  updated_at : Nat
  deriving DecidableEq

/-- The `ON CONFLICT (fixture_id) DO UPDATE` clause of
`upsert_fixture_stats`: it replaces `home_xg`, `away_xg`, the possession
and shots columns and `updated_at`, and nothing else — the
shots-on-target, corners and fouls columns are absent from the clause. -/
def updStatsRow (fixtureId : SqlVal) (stats : StatsRecord) (now : Nat)
    (r : StatsRow) : StatsRow :=
  if r.fixture_id = fixtureId then
    { r with home_xg := stats.home_xg, away_xg := stats.away_xg,
             home_possession := stats.home_possession,
             away_possession := stats.away_possession,
             home_shots := stats.home_shots, away_shots := stats.away_shots,
             updated_at := now }
  else r

/-- `SupabaseClient.upsert_fixture_stats`. -/
def upsertFixtureStats (store : List StatsRow) (fixtureId : SqlVal)
    (stats : StatsRecord) (now : Nat) : List StatsRow :=
  if store.any (fun r => r.fixture_id = fixtureId) then
    store.map (updStatsRow fixtureId stats now)
  else
    store ++ [{ toStatsRecord := stats, fixture_id := fixtureId, updated_at := now }]

/-- Row of the `fixture_stats` table with the given key. -/
def findStats (store : List StatsRow) (fixtureId : SqlVal) : Option StatsRow :=
  store.find? (fun r => r.fixture_id = fixtureId)

/-- SQL comparison `match_date >= bound` against a string parameter: true
only for a string column value at least the bound; a NULL comparison is
unknown and excludes the row. -/
def sqlGeStr (v : SqlVal) (bound : String) : Bool :=
  match v with
  | .s x => bound ≤ x
  | _ => false

/-- SQL comparison `match_date <= bound`; NULL excludes the row. -/
def sqlLeStr (v : SqlVal) (bound : String) : Bool :=
  match v with
  | .s x => x ≤ bound
  | _ => false

/-- A filter argument of `get_fixtures` is applied only when truthy
(`if date_from:` etc.), so `None` and the empty string both disable it. -/
def filterActive : Option String → Option String
  | some s => if s.isEmpty then Option.none else some s
  | Option.none => Option.none

/-- The conjunction of the `WHERE` clauses `get_fixtures` appends for the
supplied filters. -/
def fixtureMatches (date_from date_to league_id status : Option String)
    (r : FixtureRow) : Bool :=
  (match filterActive date_from with
   | some d => sqlGeStr r.match_date d
   | Option.none => true) &&
  (match filterActive date_to with
   | some d => sqlLeStr r.match_date d
   | Option.none => true) &&
  (match filterActive league_id with
   | some l => r.league_id = .s l
   | Option.none => true) &&
  (match filterActive status with
   | some s0 => r.status = .s s0
   | Option.none => true)

/-- The key order of `ORDER BY match_date ASC` on the `match_date` column:
strings compare lexicographically (the stored timestamps are ISO 8601, so
this is chronological order) and NULLs sort last, Postgres's default for
ascending order.  Heterogeneous values cannot occur in the typed column;
they are given an arbitrary total tie-break. -/
def sqlValLe : SqlVal → SqlVal → Bool
  | _, .null => true
  | .null, _ => false
  | .s a, .s b => a ≤ b
  | .s _, .n _ => true
  | .n _, .s _ => false
  | .n a, .n b => a ≤ b

/-- Row order used by `ORDER BY match_date ASC`. -/
def fixtureDateLe (a b : FixtureRow) : Prop :=
  sqlValLe a.match_date b.match_date = true

/-- `sqlValLe` is a total relation. -/
theorem sqlValLe_total (a b : SqlVal) :
    sqlValLe a b = true ∨ sqlValLe b a = true := by
  cases a <;> cases b <;> simp only [sqlValLe, decide_eq_true_eq] <;>
    first
      | (left; trivial)
      | (right; trivial)
      | exact le_total _ _

/-- `sqlValLe` is transitive. -/
theorem sqlValLe_trans (a b c : SqlVal) (hab : sqlValLe a b = true)
    (hbc : sqlValLe b c = true) : sqlValLe a c = true := by
  cases a <;> cases b <;> cases c <;>
    simp only [sqlValLe, decide_eq_true_eq] at hab hbc ⊢ <;>
    first
      | trivial
      | exact le_trans hab hbc

instance : DecidableRel fixtureDateLe := fun _ _ =>
  inferInstanceAs (Decidable (_ = true))

instance : IsTotal FixtureRow fixtureDateLe where
  total a b := sqlValLe_total a.match_date b.match_date

instance : IsTrans FixtureRow fixtureDateLe where
  trans a b c := sqlValLe_trans a.match_date b.match_date c.match_date

/-- `SupabaseClient.get_fixtures`: apply the conjunction of the supplied
filters, order by `match_date` ascending, cap the result. -/
def getFixtures (store : List FixtureRow)
    (date_from date_to league_id status : Option String) (limit : Nat) :
    List FixtureRow :=
  (((store.filter (fixtureMatches date_from date_to league_id status)).insertionSort
      fixtureDateLe).take limit)

/-! ## The sync worker (`app/workers/sync_worker.py`) -/

/-- The in-memory image of the relational store mutated by a sync run. -/
structure DB where
  fixtures : List FixtureRow
  teams : List TeamRow
  deriving DecidableEq

/-- The empty store. -/
def emptyDB : DB := { fixtures := [], teams := [] }

/-- The mapping step of `SyncWorker._save_fixture`: build `fixture_obj`
from the raw payload.  The reads follow the source order (the four
top-level objects, then the dict-literal fields in key order); the scalar
conversions of parameter binding come last, inside the same per-item try
scope.  Any step may raise, short-circuiting with that error. -/
def mapFixture (fixture_data : PyVal) : Except PyErr FixtureRecord := do
  let fixture ← pyGet fixture_data "fixture" (.dict [])
  let league ← pyGet fixture_data "league" (.dict [])
  let teams ← pyGet fixture_data "teams" (.dict [])
  let goals ← pyGet fixture_data "goals" (.dict [])
  let idv ← pyGet fixture "id" .none
  let lidv ← pyGet league "id" .none
  let homeObj ← pyGet teams "home" (.dict [])
  let htidv ← pyGet homeObj "id" .none
  let awayObj ← pyGet teams "away" (.dict [])
  let atidv ← pyGet awayObj "id" .none
  let datev ← pyGet fixture "date" .none
  let statusObj ← pyGet fixture "status" (.dict [])
  let statusv ← pyGet statusObj "short" (.str "NS")
  let hsv ← pyGet goals "home" .none
  let asv ← pyGet goals "away" .none
  let venueObj ← pyGet fixture "venue" (.dict [])
  let venuev ← pyGet venueObj "name" .none
  let refv ← pyGet fixture "referee" .none
  let md ← pyToSql datev
  let stv ← pyToSql statusv
  let hs ← pyToSql hsv
  let as ← pyToSql asv
  let vn ← pyToSql venuev
  let rf ← pyToSql refv
  pure { id := .s (pyStr idv), league_id := .s (pyStr lidv),
         home_team_id := .s (pyStr htidv), away_team_id := .s (pyStr atidv),
         match_date := md, status := stv, home_score := hs, away_score := as,
         venue := vn, referee_id := rf }

/-- The mapping step of `SyncWorker._save_team`: build `team_obj` from a
team payload (league id, founded and venue are deliberately left null in
this context). -/
def mapTeam (team_data : PyVal) : Except PyErr TeamRecord := do
  let idv ← pyGet team_data "id" .none
  let namev ← pyGet team_data "name" .none
  let logov ← pyGet team_data "logo" .none
  let countryv ← pyGet team_data "country" .none
  let nm ← pyToSql namev
  let lg ← pyToSql logov
  let ct ← pyToSql countryv
  pure { id := .s (pyStr idv), name := nm, logo_url := lg, country := ct,
         league_id := .null, founded := .null, venue := .null }

/-- `SyncWorker._save_team`: return unchanged on a falsy payload, else map
and upsert. -/
def saveTeam (store : List TeamRow) (team_data : PyVal) (now : Nat) :
    Except PyErr (List TeamRow) :=
  if pyFalsy team_data then .ok store
  else (mapTeam team_data).map (fun rec => upsertTeam store rec now)

/-- `SyncWorker._save_fixture`: map the payload, upsert the fixture, then
save the home and away teams (`teams.get("home")` / `teams.get("away")`,
re-read from the payload as in the source).  On an error the store is
returned as it stood when the error was raised, since already-committed
upserts are not rolled back. -/
def saveFixture (db : DB) (fixture_data : PyVal) (now : Nat) :
    DB × Option PyErr :=
  match mapFixture fixture_data with
  | .error e => (db, some e)
  | .ok rec =>
    let db₁ : DB := { db with fixtures := upsertFixture db.fixtures rec now }
    match (do
        let teams ← pyGet fixture_data "teams" (.dict [])
        let home ← pyGet teams "home" .none
        let away ← pyGet teams "away" .none
        pure (home, away) : Except PyErr (PyVal × PyVal)) with
    | .error e => (db₁, some e)
    | .ok (home, away) =>
      match saveTeam db₁.teams home now with
      | .error e => (db₁, some e)
      | .ok ts₁ =>
        let db₂ : DB := { db₁ with teams := ts₁ }
        match saveTeam db₂.teams away now with
        | .error e => (db₂, some e)
        | .ok ts₂ => ({ db₂ with teams := ts₂ }, Option.none)

/-- The inner fixture loop of `sync_fixtures` for one league's batch: save
each fixture in order, counting successes; the first raised error aborts
the remainder of the batch (the enclosing `try` is per league, not per
fixture), keeping any effects committed before the raise. -/
def saveFixturesLoop (now : Nat) : DB → List PyVal → DB × Nat
  | db, [] => (db, 0)
  | db, p :: rest =>
    match saveFixture db p now with
    | (db', Option.none) =>
      let (db'', n) := saveFixturesLoop now db' rest
      (db'', n + 1)
    | (db', some _) => (db', 0)

/-- `SyncWorker.sync_fixtures` over an explicit league list: fetch each
league's fixtures and run the save loop; a fetch error or a raise inside
the loop is caught at the league boundary and the run continues with the
next league, accumulating the successes counted so far. -/
def syncFixtures (fetch : String → Except PyErr (List PyVal)) (now : Nat)
    (leagues : List String) (db : DB) : DB × Nat :=
  match leagues with
  | [] => (db, 0)
  | L :: rest =>
    match fetch L with
    | .error _ => syncFixtures fetch now rest db
    | .ok ps =>
      let (db₁, n) := saveFixturesLoop now db ps
      let (db₂, m) := syncFixtures fetch now rest db₁
      (db₂, n + m)

/-- The league set used when `sync_fixtures` is called without one. -/
def defaultLeagues : List String := ["39", "140", "78", "135", "61"]

/-- `sync_fixtures` entry point: `if not leagues:` substitutes the default
major-league set. -/
def syncFixturesRun (fetch : String → Except PyErr (List PyVal)) (now : Nat)
    (leagues : List String) (db : DB) : DB × Nat :=
  syncFixtures fetch now (if leagues.isEmpty then defaultLeagues else leagues) db

/-- Python `'%' in s`, on the character list of the string. -/
def containsPercent (s : String) : Bool :=
  s.toList.contains '%'

/-- Python `s.replace('%', '')`: for the single-character pattern this
removes every occurrence, i.e. filters the character list. -/
def removePercent (s : String) : String :=
  String.mk (s.toList.filter (fun c => c != '%'))

/-- Body of the `get_stat` helper inside `_parse_fixture_stats`, iterating
the entries of a statistics list: on the first entry whose `type` equals
the target, return its `value`, converting a string containing a percent
sign to an integer (`int(value.replace('%',''))`, whose parse failure
raises `ValueError`); other values pass through unchanged.  With no match,
return `None`. -/
def getStatList : List PyVal → String → Except PyErr PyVal
  | [], _ => .ok .none
  | stat :: rest, t => do
    let ty ← pyGet stat "type" .none
    if pyEqStr ty t then
      let value ← pyGet stat "value" .none
      match value with
      | .str s =>
        if containsPercent s then
          match pyIntParse (removePercent s) with
          | some n => .ok (.int n)
          | Option.none => .error .valueError
        else .ok (.str s)
      | other => .ok other
    else getStatList rest t

/-- `get_stat(stats_list, stat_type)`: iterate the list; `for` over a
non-list value fails (modelled as the single abort error — the exact
exception class does not matter to any caller, which catches all). -/
def getStat (stats_list : PyVal) (stat_type : String) : Except PyErr PyVal :=
  match stats_list with
  | .list entries => getStatList entries stat_type
  | _ => .error .typeError

/-- `SyncWorker._parse_fixture_stats`: pick the home and away statistics
lists (empty when the response has fewer than one or two entries), extract
each metric with `get_stat`, and bind the values as SQL parameters (the
conversion happens at `upsert_fixture_stats`'s execute, inside the same
per-item try scope).  The two expected-goals fields are the literal
`None`. -/
def parseFixtureStats (stats_data : List PyVal) : Except PyErr StatsRecord := do
  let home_stats ← match stats_data with
    | x :: _ => pyGet x "statistics" (.list [])
    | [] => pure (PyVal.list [])
  let away_stats ← match stats_data with
    | _ :: y :: _ => pyGet y "statistics" (.list [])
    | _ => pure (PyVal.list [])
  let hp ← getStat home_stats "Ball Possession"
  let ap ← getStat away_stats "Ball Possession"
  let hsh ← getStat home_stats "Total Shots"
  let ash ← getStat away_stats "Total Shots"
  let hst ← getStat home_stats "Shots on Goal"
  let ast ← getStat away_stats "Shots on Goal"
  let hc ← getStat home_stats "Corner Kicks"
  let ac ← getStat away_stats "Corner Kicks"
  let hf ← getStat home_stats "Fouls"
  let af ← getStat away_stats "Fouls"
  let hp' ← pyToSql hp
  let ap' ← pyToSql ap
  let hsh' ← pyToSql hsh
  let ash' ← pyToSql ash
  let hst' ← pyToSql hst
  let ast' ← pyToSql ast
  let hc' ← pyToSql hc
  let ac' ← pyToSql ac
  let hf' ← pyToSql hf
  let af' ← pyToSql af
  pure { home_xg := .null, away_xg := .null,
         home_possession := hp', away_possession := ap',
         home_shots := hsh', away_shots := ash',
         home_shots_on_target := hst', away_shots_on_target := ast',
         home_corners := hc', away_corners := ac',
         home_fouls := hf', away_fouls := af' }

/-- The all-null statistics record produced from an empty response. -/
def nullStats : StatsRecord :=
  { home_xg := .null, away_xg := .null,
    home_possession := .null, away_possession := .null,
    home_shots := .null, away_shots := .null,
    home_shots_on_target := .null, away_shots_on_target := .null,
    home_corners := .null, away_corners := .null,
    home_fouls := .null, away_fouls := .null }

/-- `SyncWorker.sync_fixture_stats`: per fixture id (the try here is per
item), fetch the raw statistics response list, parse it and upsert; any
error is caught, skipping only that id.  `fetch` models the upstream call
including `data.get("response", [])`. -/
def syncFixtureStats (fetch : String → Except PyErr (List PyVal)) (now : Nat)
    (fixtureIds : List String) (store : List StatsRow) : List StatsRow × Nat :=
  match fixtureIds with
  | [] => (store, 0)
  | fid :: rest =>
    match (do
        let resp ← fetch fid
        let stats ← parseFixtureStats resp
        pure (upsertFixtureStats store (.s fid) stats now) :
        Except PyErr (List StatsRow)) with
    | .ok store' =>
      let (store'', n) := syncFixtureStats fetch now rest store'
      (store'', n + 1)
    | .error _ => syncFixtureStats fetch now rest store

/-! ## Object storage and logo backfill
(`app/storage/r2_client.py`, `SyncWorker.sync_team_logos`) -/

/-- The upstream asset host filtered for by the backfill selection query
(`LIKE 'https://media.api-sports.io%'`). -/
def upstreamUrlBase : String := "https://media.api-sports.io"

/-- Modelled from the spec: the public base URL of the owned object
storage (the `R2_PUBLIC_URL` setting, supplied by the environment and not
present under `src/`); only its role as a distinguishable base for owned
URLs matters here. -/
def r2PublicUrlBase : String := "https://pub.golex.r2.dev"

/-- `R2StorageClient.get_public_url`. -/
def publicUrl (objectKey : String) : String :=
  r2PublicUrlBase ++ "/" ++ objectKey

/-- `R2StorageClient.upload_team_logo` on the success path: key
`teams/{id}.png` (written here by concatenation); when the key already
exists the download/upload is skipped and the public URL returned,
otherwise the asset is downloaded from `logoUrl` and uploaded.  Returns
the storage contents, the list of performed uploads and the returned URL. -/
def uploadTeamLogo (storage : List String) (teamId : String)
    (_logoUrl : String) : List String × List String × String :=
  let key := "teams/" ++ teamId ++ ".png"
  if key ∈ storage then (storage, [], publicUrl key)
  else (key :: storage, [key], publicUrl key)

/-- SQL `LIKE 'base%'`: the column value starts with the base string
(checked on the character lists, which compute). -/
def likeStartsWith (s base : String) : Bool :=
  base.toList.isPrefixOf s.toList

/-- Selection query of `sync_team_logos`: teams whose logo still carries
the upstream URL base. -/
def isUpstreamLogo (r : TeamRow) : Bool :=
  match r.logo_url with
  | .s v => likeStartsWith v upstreamUrlBase
  | _ => false

/-- The direct field update `UPDATE teams SET logo_url = $1 WHERE id = $2`
issued after a successful mirror. -/
def updateTeamLogo (teams : List TeamRow) (id : SqlVal) (url : String) :
    List TeamRow :=
  teams.map (fun r => if r.id = id then { r with logo_url := .s url } else r)

/-- The per-team loop of `sync_team_logos` over the fetched selection:
mirror the logo, update the row, count the success; a row whose id or
logo is not a string would make the item raise, which the per-team try
catches (modelled as the skip branch).  Returns the teams table, the
storage contents, the uploads performed and the success count. -/
def syncLogosLoop : List TeamRow → List TeamRow → List String →
    List TeamRow × List String × List String × Nat
  | [], db, storage => (db, storage, [], 0)
  | t :: rest, db, storage =>
    match t.id, t.logo_url with
    | .s tid, .s logo =>
      let (storage', ups, url) := uploadTeamLogo storage tid logo
      let db' := updateTeamLogo db (.s tid) url
      let (db'', storage'', ups', n) := syncLogosLoop rest db' storage'
      (db'', storage'', ups ++ ups', n + 1)
    | _, _ => syncLogosLoop rest db storage

/-- `SyncWorker.sync_team_logos`: fetch up to `limit` teams whose logo is
still upstream-hosted, then run the per-team loop over that snapshot. -/
def syncTeamLogos (db : List TeamRow) (storage : List String) (limit : Nat) :
    List TeamRow × List String × List String × Nat :=
  syncLogosLoop ((db.filter isUpstreamLogo).take limit) db storage

example : pyStr PyVal.none = "None" := rfl
example : pyGet (PyVal.dict []) "id" PyVal.none = .ok PyVal.none := rfl
example : pyGet PyVal.none "name" PyVal.none = .error .attributeError := rfl
example : pyIntParse "63" = some 63 := rfl
example : pyIntParse "" = Option.none := rfl

/-! ## Helper lemmas about the store operations -/

/-- The fixture conflict update keeps the primary key. -/
theorem updFixtureRow_id (rec : FixtureRecord) (now : Nat) (r : FixtureRow) :
    (updFixtureRow rec now r).id = r.id := by
  unfold updFixtureRow; split <;> rfl

/-- The team conflict update keeps the primary key. -/
theorem updTeamRow_id (rec : TeamRecord) (r : TeamRow) :
    (updTeamRow rec r).id = r.id := by
  unfold updTeamRow; split <;> rfl

/-- A second fixture conflict update with the same record absorbs the
first. -/
theorem updFixtureRow_comp (rec : FixtureRecord) (t₁ t₂ : Nat) (r : FixtureRow) :
    updFixtureRow rec t₂ (updFixtureRow rec t₁ r) = updFixtureRow rec t₂ r := by
  unfold updFixtureRow
  by_cases h : r.id = rec.id <;> simp [h]

/-- Characterization of the fixture upsert on an existing key: the row is
found again with status, scores and `updated_at` replaced and every other
column kept. -/
theorem findFixture_upsert_existing (st : List FixtureRow) (rec : FixtureRecord)
    (now : Nat) (old : FixtureRow) (h : findFixture st rec.id = some old) :
    findFixture (upsertFixture st rec now) rec.id =
      some { old with status := rec.status, home_score := rec.home_score,
                      away_score := rec.away_score, updated_at := now } := by
  have hold : old ∈ st ∧ old.id = rec.id := by
    refine ⟨List.mem_of_find?_eq_some h, ?_⟩
    have := List.find?_some h
    simpa using this
  have hany : (st.any fun r => r.id = rec.id) = true := by
    rw [List.any_eq_true]
    exact ⟨old, hold.1, by simpa using hold.2⟩
  unfold upsertFixture
  rw [hany]
  simp only [if_true]
  unfold findFixture at h ⊢
  rw [List.find?_map]
  have hcomp : ((fun r : FixtureRow => decide (r.id = rec.id)) ∘ updFixtureRow rec now)
      = fun r : FixtureRow => decide (r.id = rec.id) := by
    funext r
    simp [Function.comp, updFixtureRow_id]
  rw [hcomp, h]
  simp only [Option.map_some']
  unfold updFixtureRow
  rw [if_pos hold.2]

/-- Characterization of the team upsert on an existing key: the row is
found again with name, logo and venue replaced and every other column
kept. -/
theorem findTeam_upsert_existing (st : List TeamRow) (rec : TeamRecord)
    (now : Nat) (old : TeamRow) (h : findTeam st rec.id = some old) :
    findTeam (upsertTeam st rec now) rec.id =
      some { old with name := rec.name, logo_url := rec.logo_url,
                      venue := rec.venue } := by
  have hold : old ∈ st ∧ old.id = rec.id := by
    refine ⟨List.mem_of_find?_eq_some h, ?_⟩
    have := List.find?_some h
    simpa using this
  have hany : (st.any fun r => r.id = rec.id) = true := by
    rw [List.any_eq_true]
    exact ⟨old, hold.1, by simpa using hold.2⟩
  unfold upsertTeam
  rw [hany]
  simp only [if_true]
  unfold findTeam at h ⊢
  rw [List.find?_map]
  have hcomp : ((fun r : TeamRow => decide (r.id = rec.id)) ∘ updTeamRow rec)
      = fun r : TeamRow => decide (r.id = rec.id) := by
    funext r
    simp [Function.comp, updTeamRow_id]
  rw [hcomp, h]
  simp only [Option.map_some']
  unfold updTeamRow
  rw [if_pos hold.2]

/-- A double upsert of the same record equals the single upsert at the
later time. -/
theorem upsertFixture_absorb (st : List FixtureRow) (rec : FixtureRecord)
    (t₁ t₂ : Nat) :
    upsertFixture (upsertFixture st rec t₁) rec t₂ = upsertFixture st rec t₂ := by
  by_cases h : (st.any fun r => r.id = rec.id) = true
  · have e₁ : upsertFixture st rec t₁ = st.map (updFixtureRow rec t₁) := by
      unfold upsertFixture; rw [if_pos h]
    have e₂ : upsertFixture st rec t₂ = st.map (updFixtureRow rec t₂) := by
      unfold upsertFixture; rw [if_pos h]
    have hmap : ((st.map (updFixtureRow rec t₁)).any fun r => r.id = rec.id) = true := by
      rw [List.any_map]
      have hc : ((fun r : FixtureRow => decide (r.id = rec.id)) ∘ updFixtureRow rec t₁)
          = fun r : FixtureRow => decide (r.id = rec.id) := by
        funext r; simp [Function.comp, updFixtureRow_id]
      rw [hc]; exact h
    rw [e₁, e₂]
    unfold upsertFixture
    rw [if_pos hmap, List.map_map]
    congr 1
    funext r
    exact updFixtureRow_comp rec t₁ t₂ r
  · have hnone : ∀ r ∈ st, r.id ≠ rec.id := fun r hr hc =>
      h (List.any_eq_true.mpr ⟨r, hr, by simpa using hc⟩)
    have e₁ : upsertFixture st rec t₁
        = st ++ [({ toFixtureRecord := rec, updated_at := t₁ } : FixtureRow)] := by
      unfold upsertFixture; rw [if_neg h]
    have e₂ : upsertFixture st rec t₂
        = st ++ [({ toFixtureRecord := rec, updated_at := t₂ } : FixtureRow)] := by
      unfold upsertFixture; rw [if_neg h]
    have hany₂ : (((st ++ [({ toFixtureRecord := rec, updated_at := t₁ } : FixtureRow)]).any
        fun r => r.id = rec.id)) = true := by
      rw [List.any_append]; simp
    rw [e₁, e₂]
    unfold upsertFixture
    rw [if_pos hany₂, List.map_append]
    have hrest : st.map (updFixtureRow rec t₂) = st := by
      calc st.map (updFixtureRow rec t₂)
          = st.map id := List.map_congr_left (fun r hr => by
            unfold updFixtureRow
            rw [if_neg (hnone r hr)]
            rfl)
        _ = st := List.map_id st
    have hlast : ([({ toFixtureRecord := rec, updated_at := t₁ } : FixtureRow)]).map
        (updFixtureRow rec t₂)
        = [({ toFixtureRecord := rec, updated_at := t₂ } : FixtureRow)] := by
      simp only [List.map_cons, List.map_nil]
      unfold updFixtureRow
      rw [if_pos rfl]
    rw [hrest, hlast]

/-! ## Claim C7 -/

/-- The record used by the C7 counterexample. -/
def c7rec : FixtureRecord :=
  { id := .s "1001", league_id := .s "39", home_team_id := .s "33",
    away_team_id := .s "34", match_date := .s "2025-10-01T15:00:00+00:00",
    status := .s "NS", home_score := .null, away_score := .null,
    venue := .s "Emirates Stadium", referee_id := .null }

/-- C7, counterexample: applying `upsert_fixture` a second time with the
identical record is observable — `updated_at` is set to `NOW()` again, so
the store after the second application (at a later clock) differs from the
store after a single upsert. -/
theorem c7_counterexample_updated_at :
    upsertFixture (upsertFixture [] c7rec 0) c7rec 1 ≠ upsertFixture [] c7rec 0 := by
  decide

/-- C7 (corrected): upserting the identical canonical Fixture record twice
yields exactly the store of a single upsert performed at the second
application's time — all payload-derived columns converge identically and
only `updated_at` advances, so a second application at the same clock
value is a perfect no-op. -/
theorem c7_amended_upsert_absorption (st : List FixtureRow)
    (rec : FixtureRecord) (t₁ t₂ : Nat) :
    upsertFixture (upsertFixture st rec t₁) rec t₂ = upsertFixture st rec t₂ :=
  upsertFixture_absorb st rec t₁ t₂

/-! ## Claim C3 -/

/-- The stored row used by the C3 counterexample and witness. -/
def c3old : FixtureRow :=
  { id := .s "1001", league_id := .s "39", home_team_id := .s "33",
    away_team_id := .s "34", match_date := .s "2025-10-01T15:00:00+00:00",
    status := .s "NS", home_score := .null, away_score := .null,
    venue := .s "Old Ground", referee_id := .null, updated_at := 0 }

/-- The new payload used by the C3 counterexample and witness: same
external id, every mutable field different. -/
def c3rec : FixtureRecord :=
  { id := .s "1001", league_id := .s "140", home_team_id := .s "35",
    away_team_id := .s "36", match_date := .s "2025-10-02T15:00:00+00:00",
    status := .s "FT", home_score := .n 2, away_score := .n 1,
    venue := .s "New Ground", referee_id := .s "R1" }

/-- C3, counterexample: after upserting a payload with league id "140"
over an existing row with league id "39", the stored row still carries
"39" — `upsert_fixture` does not converge `league_id` (nor team ids,
schedule, venue or referee) to the new payload. -/
theorem c3_counterexample_league_id_stale :
    (findFixture (upsertFixture [c3old] c3rec 5) c3rec.id).map
      (fun r => r.league_id) = some (.s "39")
    ∧ c3rec.league_id = .s "140" := by
  constructor
  · rfl
  · rfl

/-- C3 (corrected): on an existing external id, `upsert_fixture` converges
only `status`, `home_score`, `away_score` and `updated_at` to the new
payload; `league_id`, the team ids, `match_date`, `venue` and `referee_id`
keep the values stored at first insertion. -/
theorem c3_amended_conflict_updates_status_scores (st : List FixtureRow)
    (rec : FixtureRecord) (now : Nat) (old : FixtureRow)
    (h : findFixture st rec.id = some old) :
    findFixture (upsertFixture st rec now) rec.id =
      some { id := old.id, league_id := old.league_id,
             home_team_id := old.home_team_id, away_team_id := old.away_team_id,
             match_date := old.match_date, status := rec.status,
             home_score := rec.home_score, away_score := rec.away_score,
             venue := old.venue, referee_id := old.referee_id,
             updated_at := now } :=
  findFixture_upsert_existing st rec now old h

/-- C3, witness: the corrected statement evaluated on the concrete row and
payload above. -/
theorem c3_amended_witness :
    findFixture (upsertFixture [c3old] c3rec 5) c3rec.id =
      some { id := c3old.id, league_id := c3old.league_id,
             home_team_id := c3old.home_team_id,
             away_team_id := c3old.away_team_id,
             match_date := c3old.match_date, status := c3rec.status,
             home_score := c3rec.home_score, away_score := c3rec.away_score,
             venue := c3old.venue, referee_id := c3old.referee_id,
             updated_at := 5 } :=
  c3_amended_conflict_updates_status_scores [c3old] c3rec 5 c3old rfl

/-! ## Claim C1 -/

/-- A stored team whose logo reference already uses the owned-storage URL
base. -/
def c1row : TeamRow :=
  { id := .s "33", name := .s "Arsenal",
    logo_url := .s (publicUrl ("teams/" ++ "33" ++ ".png")),
    country := .s "England", league_id := .null, founded := .null,
    venue := .null, created_at := 0 }

/-- The team object of a fixture payload for the same team, carrying the
upstream logo URL as `_save_team` always does. -/
def c1payload : PyVal :=
  PyVal.dict [("id", PyVal.int 33), ("name", PyVal.str "Arsenal"),
    ("logo", PyVal.str "https://media.api-sports.io/football/teams/33.png"),
    ("country", PyVal.str "England")]

/-- C1, counterexample: the stored logo uses the owned-storage base, yet
the `_save_team`/`upsert_team` path of a fixture sync overwrites it with
the payload's upstream URL — the owned reference is not preserved. -/
theorem c1_counterexample_logo_overwritten :
    (c1row.logo_url = .s (publicUrl "teams/33.png"))
    ∧ saveTeam [c1row] c1payload 1 =
        .ok [{ id := .s "33", name := .s "Arsenal",
               logo_url := .s "https://media.api-sports.io/football/teams/33.png",
               country := .s "England", league_id := .null, founded := .null,
               venue := .null, created_at := 0 }]
    ∧ SqlVal.s "https://media.api-sports.io/football/teams/33.png"
        ≠ .s (publicUrl "teams/33.png") := by
  refine ⟨rfl, rfl, ?_⟩
  decide

/-- C1 (corrected): `upsert_team` applies no guard on the logo column: on
an id conflict it always replaces `logo_url` (with `name` and `venue`) by
the incoming record's value, so a team upsert derived from a fixture
payload resets an owned-storage logo reference back to the upstream URL;
only a later logo backfill promotes it again. -/
theorem c1_amended_upsert_team_overwrites_logo (st : List TeamRow)
    (rec : TeamRecord) (now : Nat) (old : TeamRow)
    (h : findTeam st rec.id = some old) :
    findTeam (upsertTeam st rec now) rec.id =
      some { id := old.id, name := rec.name, logo_url := rec.logo_url,
             country := old.country, league_id := old.league_id,
             founded := old.founded, venue := rec.venue,
             created_at := old.created_at } :=
  findTeam_upsert_existing st rec now old h

/-- C1, witness: the corrected statement evaluated on the concrete owned
row, under an upsert carrying an upstream logo. -/
theorem c1_amended_witness :
    findTeam (upsertTeam [c1row]
      { id := .s "33", name := .s "Arsenal",
        logo_url := .s "https://media.api-sports.io/football/teams/33.png",
        country := .null, league_id := .null, founded := .null,
        venue := .null } 1) (.s "33") =
      some { id := c1row.id, name := .s "Arsenal",
             logo_url := .s "https://media.api-sports.io/football/teams/33.png",
             country := c1row.country, league_id := c1row.league_id,
             founded := c1row.founded, venue := .null,
             created_at := c1row.created_at } :=
  c1_amended_upsert_team_overwrites_logo [c1row]
    { id := .s "33", name := .s "Arsenal",
      logo_url := .s "https://media.api-sports.io/football/teams/33.png",
      country := .null, league_id := .null, founded := .null,
      venue := .null } 1 c1row rfl

/-! ## Claim C4 -/

/-- The existing statistics row used by the C4 theorem. -/
def c4old : StatsRow :=
  { home_xg := .null, away_xg := .null,
    home_possession := .n 50, away_possession := .n 50,
    home_shots := .n 4, away_shots := .n 6,
    home_shots_on_target := .n 1, away_shots_on_target := .n 2,
    home_corners := .n 5, away_corners := .n 4,
    home_fouls := .n 7, away_fouls := .n 9,
    fixture_id := .s "100", updated_at := 0 }

/-- The new statistics record used by the C4 theorem: every stat value
differs from the stored row. -/
def c4new : StatsRecord :=
  { home_xg := .null, away_xg := .null,
    home_possession := .n 60, away_possession := .n 40,
    home_shots := .n 9, away_shots := .n 2,
    home_shots_on_target := .n 5, away_shots_on_target := .n 1,
    home_corners := .n 7, away_corners := .n 3,
    home_fouls := .n 11, away_fouls := .n 8 }

/-- C4 (code bug): `upsert_fixture_stats` on an existing row replaces the
possession and shots columns but leaves `home_shots_on_target`,
`away_shots_on_target`, the corners and the fouls columns at their
previous values — the `DO UPDATE` list omits them while the insert path
supplies all of them, so identical payloads produce diverging rows. -/
theorem c4_code_bug_stats_partial_update :
    findStats (upsertFixtureStats [c4old] (.s "100") c4new 1) (.s "100") =
      some { home_xg := c4new.home_xg, away_xg := c4new.away_xg,
             home_possession := c4new.home_possession,
             away_possession := c4new.away_possession,
             home_shots := c4new.home_shots, away_shots := c4new.away_shots,
             home_shots_on_target := c4old.home_shots_on_target,
             away_shots_on_target := c4old.away_shots_on_target,
             home_corners := c4old.home_corners,
             away_corners := c4old.away_corners,
             home_fouls := c4old.home_fouls, away_fouls := c4old.away_fouls,
             fixture_id := .s "100", updated_at := 1 }
    ∧ c4old.home_corners ≠ c4new.home_corners
    ∧ c4old.home_shots_on_target ≠ c4new.home_shots_on_target
    ∧ c4old.home_fouls ≠ c4new.home_fouls := by
  refine ⟨rfl, ?_, ?_, ?_⟩ <;> decide

/-! ## Claim C6 -/

/-- Binding an `Except.ok` value in a do-block steps to the continuation. -/
theorem exceptBindOk {ε α β : Type} (a : α) (f : α → Except ε β) :
    (Except.ok a >>= f : Except ε β) = f a := rfl

/-- The record produced by the mapping step of `_save_fixture` when the
four nested payload objects are all absent. -/
def c6AbsentRecord : FixtureRecord :=
  { id := .s "None", league_id := .s "None", home_team_id := .s "None",
    away_team_id := .s "None", match_date := .null, status := .s "NS",
    home_score := .null, away_score := .null, venue := .null,
    referee_id := .null }

/-- C6, counterexample: the mapping step is not total and does not map
missing objects to null — a payload whose `fixture` object carries
`venue: null` makes it raise `AttributeError`, and on a payload with no
nested objects at all the id fields become the string `"None"` rather than
null (`str(None)`). -/
theorem c6_counterexample_mapper :
    mapFixture (PyVal.dict [("fixture", PyVal.dict [("venue", PyVal.none)])])
      = .error .attributeError
    ∧ (mapFixture (PyVal.dict [])).map (fun r => r.id) = .ok (.s "None")
    ∧ SqlVal.s "None" ≠ SqlVal.null := by
  refine ⟨rfl, rfl, ?_⟩
  decide

/-- C6 (corrected): on payloads where the nested `fixture`, `league`,
`teams` and `goals` objects are absent, the mapper succeeds, mapping the
date, scores, venue and referee to null and the status to its "NS"
default, but stringifying the four id fields to the literal `"None"`
instead of null; and the mapper is not total — a nested object that is
present but bound to null (rather than absent) raises. -/
theorem c6_amended_mapper_absent_keys :
    (∀ fs : List (String × PyVal),
      lookupKey fs "fixture" = Option.none →
      lookupKey fs "league" = Option.none →
      lookupKey fs "teams" = Option.none →
      lookupKey fs "goals" = Option.none →
      mapFixture (.dict fs) = .ok c6AbsentRecord)
    ∧ mapFixture (PyVal.dict [("fixture", PyVal.dict [("venue", PyVal.none)])])
        = .error .attributeError := by
  constructor
  · intro fs h1 h2 h3 h4
    unfold mapFixture
    simp only [pyGet, h1, h2, h3, h4, Option.getD, exceptBindOk]
    rfl
  · rfl

/-- C6, witness: the corrected statement evaluated on the empty payload. -/
theorem c6_amended_witness :
    mapFixture (PyVal.dict []) = .ok c6AbsentRecord :=
  c6_amended_mapper_absent_keys.1 [] rfl rfl rfl rfl

/-! ## Claim C2 -/

/-- Extending a batch that was saved without a failure: the loop carries
on into the extension, accumulating counts. -/
theorem saveFixturesLoop_full_append (now : Nat) (ps₁ : List PyVal) :
    ∀ (db db₁ : DB), saveFixturesLoop now db ps₁ = (db₁, ps₁.length) →
    ∀ qs : List PyVal,
      saveFixturesLoop now db (ps₁ ++ qs) =
        ((saveFixturesLoop now db₁ qs).1,
          ps₁.length + (saveFixturesLoop now db₁ qs).2) := by
  induction ps₁ with
  | nil =>
    intro db db₁ hfull qs
    simp only [saveFixturesLoop, List.length_nil] at hfull
    obtain ⟨rfl, -⟩ : db = db₁ ∧ (0 : Nat) = 0 := by
      exact ⟨congrArg Prod.fst hfull, rfl⟩
    simp only [List.nil_append, List.length_nil, Nat.zero_add]
  | cons p rest ih =>
    intro db db₁ hfull qs
    simp only [saveFixturesLoop, List.length_cons] at hfull
    rcases hsf : saveFixture db p now with ⟨db', err⟩
    rw [hsf] at hfull
    cases err with
    | none =>
      simp only at hfull
      have hrest : saveFixturesLoop now db' rest = (db₁, rest.length) := by
        rcases hloop : saveFixturesLoop now db' rest with ⟨db'', n⟩
        rw [hloop] at hfull
        simp only [Prod.mk.injEq] at hfull
        obtain ⟨h₁, h₂⟩ := hfull
        exact Prod.ext h₁ (by omega)
      have hih := ih db' db₁ hrest qs
      rw [List.cons_append]
      simp only [saveFixturesLoop, hsf, List.append_eq] at hih ⊢
      rw [hih]
      simp only [List.length_cons]
      refine Prod.ext rfl ?_
      simp only
      omega
    | some e =>
      simp only [Prod.mk.injEq] at hfull
      omega

/-- A well-formed fixture payload used by the C2 theorems: a plain fixture
object carrying only an id. -/
def c2good (k : Int) : PyVal :=
  PyVal.dict [("fixture", PyVal.dict [("id", PyVal.int k)])]

/-- The malformed third item of the C2 batch: its fixture object binds
`venue` to null, which makes the mapper raise. -/
def c2bad : PyVal :=
  PyVal.dict [("fixture",
    PyVal.dict [("id", PyVal.int 3), ("venue", PyVal.none)])]

/-- Upstream fetch returning the five-item batch for league "39". -/
def c2fetch : String → Except PyErr (List PyVal) := fun L =>
  if L = "39" then
    .ok [c2good 1, c2good 2, c2bad, c2good 4, c2good 5]
  else .error .typeError

/-- C2, counterexample: in a batch of 5 where item 3 raises a mapping
error, the run reports 2 successes, not 4, and item 4 is not in the store
— the enclosing try of `sync_fixtures` is per league, so the failure
aborts the rest of that league's batch. -/
theorem c2_counterexample_league_abort :
    (syncFixtures c2fetch 0 ["39"] emptyDB).2 = 2
    ∧ findFixture (syncFixtures c2fetch 0 ["39"] emptyDB).1.fixtures (.s "4")
        = Option.none
    ∧ (2 : Nat) ≠ 4 := by
  refine ⟨rfl, rfl, ?_⟩
  decide

/-- C2 (corrected): failure isolation in `sync_fixtures` is per league,
not per item: when one league's batch is a prefix that saves cleanly, then
a failing item, the run for that league commits exactly the prefix (plus
whatever the failing item wrote before raising), counts only the prefix,
and never processes the items after the failure; the run still completes
normally. -/
theorem c2_amended_per_league_isolation
    (fetch : String → Except PyErr (List PyVal)) (now : Nat) (L : String)
    (db db₁ : DB) (ps₁ ps₂ : List PyVal) (bad : PyVal) (e : PyErr)
    (hfetch : fetch L = .ok (ps₁ ++ bad :: ps₂))
    (hfull : saveFixturesLoop now db ps₁ = (db₁, ps₁.length))
    (hbad : (saveFixture db₁ bad now).2 = some e) :
    syncFixtures fetch now [L] db = ((saveFixture db₁ bad now).1, ps₁.length) := by
  have happ := saveFixturesLoop_full_append now ps₁ db db₁ hfull (bad :: ps₂)
  have hloop : saveFixturesLoop now db₁ (bad :: ps₂) =
      ((saveFixture db₁ bad now).1, 0) := by
    rcases hsf : saveFixture db₁ bad now with ⟨db', err⟩
    rw [hsf] at hbad
    simp only at hbad
    subst hbad
    simp only [saveFixturesLoop, hsf]
  rw [hloop] at happ
  simp only at happ
  simp only [syncFixtures, hfetch, happ, Nat.add_zero]

/-- C2, witness: the corrected statement evaluated on the concrete
five-item batch (prefix of two good items, then the malformed item). -/
theorem c2_amended_witness :
    syncFixtures c2fetch 0 ["39"] emptyDB =
      ((saveFixture (saveFixturesLoop 0 emptyDB [c2good 1, c2good 2]).1
          c2bad 0).1, 2) :=
  c2_amended_per_league_isolation c2fetch 0 "39" emptyDB
    (saveFixturesLoop 0 emptyDB [c2good 1, c2good 2]).1
    [c2good 1, c2good 2] [c2good 4, c2good 5] c2bad .attributeError
    rfl rfl rfl

/-! ## Claim C5 -/

/-- Entry constructor for stat lists: a well-formed labelled metric entry
with a `type` and a `value` key. -/
def mkEntry (ty : String) (v : PyVal) : PyVal :=
  PyVal.dict [("type", .str ty), ("value", v)]

/-- Map a list of labelled values to well-formed entries. -/
def entriesOf (es : List (String × PyVal)) : List PyVal :=
  es.map (fun p => mkEntry p.1 p.2)

/-- Skipping a non-matching head entry. -/
theorem getStatList_head_miss (a : String) (b : PyVal) (rest : List PyVal)
    (t : String) (h : a ≠ t) :
    getStatList (mkEntry a b :: rest) t = getStatList rest t := by
  have hne : pyEqStr (.str a) t = false := by simp [pyEqStr, h]
  show (if pyEqStr (.str a) t then _ else getStatList rest t) = getStatList rest t
  rw [hne]
  simp only [Bool.false_eq_true, if_false]

/-- Evaluating a matching head entry. -/
theorem getStatList_head_hit (t : String) (b : PyVal) (rest : List PyVal) :
    getStatList (mkEntry t b :: rest) t =
      (match b with
       | .str s =>
         if containsPercent s then
           (match pyIntParse (removePercent s) with
            | some n => .ok (.int n)
            | Option.none => .error .valueError)
         else .ok (.str s)
       | other => .ok other) := by
  have heq : pyEqStr (.str t) t = true := by simp [pyEqStr]
  show (if pyEqStr (.str t) t then _ else getStatList rest t) = _
  rw [heq]
  simp only [if_true]
  rfl

/-- Entries of a non-matching labelled prefix are skipped. -/
theorem getStatList_entries_skip (pre : List (String × PyVal)) (t : String)
    (h : ∀ p ∈ pre, p.1 ≠ t) (tail : List PyVal) :
    getStatList (entriesOf pre ++ tail) t = getStatList tail t := by
  induction pre with
  | nil => rfl
  | cons p rest ih =>
    obtain ⟨a, b⟩ := p
    simp only [entriesOf, List.map_cons, List.cons_append] at ih ⊢
    rw [getStatList_head_miss a b _ t (h (a, b) (by simp))]
    exact ih (fun q hq => h q (List.mem_cons_of_mem _ hq))

/-- C5 (confirmed): over any unordered list of `type`/`value` entries,
`get_stat` returns the first matching entry's value — a string containing
a percent sign is normalized to the parsed integer, any other value passes
through unchanged — and with no matching entry it returns the unavailable
marker `None` without raising an exception. -/
theorem c5_get_stat_contract :
    (∀ (es : List (String × PyVal)) (t : String),
      (∀ p ∈ es, p.1 ≠ t) → getStatList (entriesOf es) t = .ok .none)
    ∧ (∀ (pre : List (String × PyVal)) (t : String) (v : PyVal)
        (rest : List (String × PyVal)),
        (∀ p ∈ pre, p.1 ≠ t) →
        (match v with | .str s => containsPercent s = false | _ => True) →
        getStatList (entriesOf (pre ++ (t, v) :: rest)) t = .ok v)
    ∧ (∀ (pre : List (String × PyVal)) (t : String) (s : String) (n : Int)
        (rest : List (String × PyVal)),
        (∀ p ∈ pre, p.1 ≠ t) → containsPercent s = true →
        pyIntParse (removePercent s) = some n →
        getStatList (entriesOf (pre ++ (t, .str s) :: rest)) t
          = .ok (.int n)) := by
  refine ⟨?_, ?_, ?_⟩
  · intro es t h
    have := getStatList_entries_skip es t h []
    simpa using this
  · intro pre t v rest hpre hv
    have hsplit : entriesOf (pre ++ (t, v) :: rest)
        = entriesOf pre ++ (mkEntry t v :: entriesOf rest) := by
      simp [entriesOf]
    rw [hsplit, getStatList_entries_skip pre t hpre, getStatList_head_hit]
    cases v <;> simp_all
  · intro pre t s n rest hpre hc hp
    have hsplit : entriesOf (pre ++ (t, .str s) :: rest)
        = entriesOf pre ++ (mkEntry t (.str s) :: entriesOf rest) := by
      simp [entriesOf]
    rw [hsplit, getStatList_entries_skip pre t hpre, getStatList_head_hit]
    simp only [hc, if_true, hp]

/-- C5, witness: "63%" for "Ball Possession" yields the integer 63, and a
missing metric yields the unavailable marker, not an error. -/
theorem c5_witness :
    getStatList (entriesOf [("Ball Possession", PyVal.str "63%")])
      "Ball Possession" = .ok (.int 63)
    ∧ getStatList (entriesOf [("Fouls", PyVal.int 10)]) "Corner Kicks"
      = .ok .none := by
  constructor
  · exact c5_get_stat_contract.2.2 [] "Ball Possession" "63%" 63 []
      (by simp) (by decide) (by decide)
  · exact c5_get_stat_contract.1 [("Fouls", PyVal.int 10)] "Corner Kicks"
      (by simp)

/-! ## Claim C10 -/

/-- C10 (confirmed): a fixture id whose statistics fetch succeeds with an
empty response list still gets a `FixtureStats` record upserted in which
every stat field is null (the expected-goals fields always are), and the
run counts that fixture as synced — its success increments the returned
count. -/
theorem c10_empty_stats_synced
    (fetch : String → Except PyErr (List PyVal)) (now : Nat) (fid : String)
    (rest : List String) (store : List StatsRow)
    (h : fetch fid = .ok []) :
    parseFixtureStats [] = .ok nullStats
    ∧ syncFixtureStats fetch now (fid :: rest) store =
        ((syncFixtureStats fetch now rest
            (upsertFixtureStats store (.s fid) nullStats now)).1,
         (syncFixtureStats fetch now rest
            (upsertFixtureStats store (.s fid) nullStats now)).2 + 1) := by
  constructor
  · rfl
  · simp only [syncFixtureStats, h, exceptBindOk]
    rfl

/-- C10, witness: a single fixture with an empty statistics response ends
with one all-null row and a success count of 1. -/
theorem c10_witness :
    syncFixtureStats (fun _ => .ok []) 5 ["77"] [] =
      ([{ toStatsRecord := nullStats, fixture_id := .s "77",
          updated_at := 5 }], 1) :=
  (c10_empty_stats_synced (fun _ => .ok []) 5 "77" [] [] rfl).2

/-! ## Claim C9 -/

/-- C9 (confirmed): whatever combination of the optional filters is
supplied, `get_fixtures` returns only stored fixtures satisfying the
conjunction of all the supplied predicates, ordered by scheduled timestamp
ascending, with at most `limit` rows. -/
theorem c9_get_fixtures_filters_order_cap (store : List FixtureRow)
    (date_from date_to league_id status : Option String) (limit : Nat) :
    (∀ r ∈ getFixtures store date_from date_to league_id status limit,
      fixtureMatches date_from date_to league_id status r = true ∧ r ∈ store)
    ∧ (getFixtures store date_from date_to league_id status limit).Sorted
        fixtureDateLe
    ∧ (getFixtures store date_from date_to league_id status limit).length
        ≤ limit := by
  refine ⟨?_, ?_, ?_⟩
  · intro r hr
    have hr' : r ∈ (store.filter
        (fixtureMatches date_from date_to league_id status)).insertionSort
        fixtureDateLe :=
      (List.take_sublist _ _).subset hr
    have hmem : r ∈ store.filter
        (fixtureMatches date_from date_to league_id status) :=
      (List.perm_insertionSort fixtureDateLe _).mem_iff.mp hr'
    exact ⟨(List.mem_filter.mp hmem).2, (List.mem_filter.mp hmem).1⟩
  · exact List.Pairwise.sublist (List.take_sublist _ _)
      (List.sorted_insertionSort fixtureDateLe _)
  · exact List.length_take_le _ _

/-- C9, witness: the theorem applied to a two-row store with the league
and status filters of the specification's example, instantiated at the
row the query returns. -/
theorem c9_witness :
    fixtureMatches Option.none Option.none (some "39") (some "NS") c3old
      = true
    ∧ c3old ∈ [c3old]
    ∧ (getFixtures [c3old] Option.none Option.none (some "39") (some "NS")
        100).length ≤ 100 := by
  have h := c9_get_fixtures_filters_order_cap [c3old]
    Option.none Option.none (some "39") (some "NS") 100
  refine ⟨?_, ?_, h.2.2⟩
  · exact (h.1 c3old (by decide)).1
  · exact (h.1 c3old (by decide)).2

/-! ## Claim C8 -/

/-- Invariant of the per-team backfill loop: the uploads it performs are
pairwise distinct keys, none of them was already in storage, and the
storage it returns contains the initial storage and every performed
upload. -/
theorem syncLogosLoop_uploads (sel : List TeamRow) :
    ∀ (db : List TeamRow) (storage : List String),
      ((syncLogosLoop sel db storage).2.2.1).Nodup
      ∧ (∀ k ∈ (syncLogosLoop sel db storage).2.2.1, k ∉ storage)
      ∧ (∀ k ∈ storage, k ∈ (syncLogosLoop sel db storage).2.1)
      ∧ (∀ k ∈ (syncLogosLoop sel db storage).2.2.1,
          k ∈ (syncLogosLoop sel db storage).2.1) := by
  induction sel with
  | nil =>
    intro db storage
    refine ⟨List.nodup_nil, ?_, ?_, ?_⟩ <;> simp [syncLogosLoop]
  | cons t rest ih =>
    intro db storage
    simp only [syncLogosLoop]
    split
    · rename_i tid logo _ _
      show (let r := uploadTeamLogo storage tid logo; _ : Prop)
      unfold uploadTeamLogo
      by_cases hk : ("teams/" ++ tid ++ ".png") ∈ storage
      · simp only [hk, if_pos, if_true]
        have := ih (updateTeamLogo db (.s tid)
          (publicUrl ("teams/" ++ tid ++ ".png"))) storage
        simpa using this
      · simp only [hk, if_false, if_neg, not_false_iff]
        obtain ⟨hnd, hfresh, hgrow, hin⟩ := ih (updateTeamLogo db (.s tid)
          (publicUrl ("teams/" ++ tid ++ ".png")))
          (("teams/" ++ tid ++ ".png") :: storage)
        constructor
        · simp only [List.cons_append, List.nil_append, List.nodup_cons]
          exact ⟨fun hmem => (hfresh _ hmem) (List.mem_cons_self _ _), hnd⟩
        constructor
        · intro k hkmem
          simp only [List.cons_append, List.nil_append, List.mem_cons] at hkmem
          rcases hkmem with rfl | hkmem
          · exact hk
          · intro hkst
            exact hfresh k hkmem (List.mem_cons_of_mem _ hkst)
        constructor
        · intro k hkst
          exact hgrow k (List.mem_cons_of_mem _ hkst)
        · intro k hkmem
          simp only [List.cons_append, List.nil_append, List.mem_cons] at hkmem
          rcases hkmem with rfl | hkmem
          · exact hgrow _ (List.mem_cons_self _ _)
          · exact hin k hkmem
    · exact ih db storage

/-- C8 (confirmed): running logo backfill twice in succession (threading
the store and the object storage) performs each key's upload at most once
in total — the combined upload list has no duplicate — and whenever a
processed team's key is already present, the existence check makes
`upload_team_logo` skip the transfer entirely while still returning the
owned public URL. -/
theorem c8_logo_backfill_dedup (db : List TeamRow) (storage : List String)
    (limit : Nat) :
    ((syncTeamLogos db storage limit).2.2.1 ++
      (syncTeamLogos (syncTeamLogos db storage limit).1
        (syncTeamLogos db storage limit).2.1 limit).2.2.1).Nodup
    ∧ (∀ (st : List String) (tid logo : String),
        ("teams/" ++ tid ++ ".png") ∈ st →
        uploadTeamLogo st tid logo =
          (st, [], publicUrl ("teams/" ++ tid ++ ".png"))) := by
  constructor
  · obtain ⟨hnd₁, -, -, hin₁⟩ := syncLogosLoop_uploads
      ((db.filter isUpstreamLogo).take limit) db storage
    obtain ⟨hnd₂, hfresh₂, -, -⟩ := syncLogosLoop_uploads
      (((syncTeamLogos db storage limit).1.filter isUpstreamLogo).take limit)
      (syncTeamLogos db storage limit).1
      (syncTeamLogos db storage limit).2.1
    refine List.Nodup.append ?_ ?_ ?_
    · exact hnd₁
    · exact hnd₂
    · intro k hk₁ hk₂
      exact hfresh₂ k hk₂ (hin₁ k hk₁)
  · intro st tid logo h
    unfold uploadTeamLogo
    rw [if_pos h]

/-- Teams used by the C8 witness, both still carrying upstream logos. -/
def c8db : List TeamRow :=
  [{ id := .s "1", name := .s "A",
     logo_url := .s "https://media.api-sports.io/football/teams/1.png",
     country := .null, league_id := .null, founded := .null, venue := .null,
     created_at := 0 },
   { id := .s "2", name := .s "B",
     logo_url := .s "https://media.api-sports.io/football/teams/2.png",
     country := .null, league_id := .null, founded := .null, venue := .null,
     created_at := 0 }]

/-- C8, witness: the dedup statement on a concrete two-team store with
empty storage, and the skip branch on a concrete pre-existing key. -/
theorem c8_witness :
    ((syncTeamLogos c8db [] 10).2.2.1 ++
      (syncTeamLogos (syncTeamLogos c8db [] 10).1
        (syncTeamLogos c8db [] 10).2.1 10).2.2.1).Nodup
    ∧ uploadTeamLogo ["teams/9.png"] "9" "u"
        = (["teams/9.png"], [], publicUrl "teams/9.png") := by
  refine ⟨(c8_logo_backfill_dedup c8db [] 10).1, ?_⟩
  exact (c8_logo_backfill_dedup c8db [] 10).2 ["teams/9.png"] "9" "u"
    (by simp)

end Golex
